import Mathlib

/-!
# Verification of the homeostatic city regulation engines

Shallow embedding of the regulation engines of the `homeostatic_city_biocor`
repository, together with theorems settling the specification's claims.

The repository contains several near-duplicate engine implementations:

* `src/city_core/src/main.rs` — `HomeostaticEngine` with a per-zone EMA
  accumulator (seeded at 0.5), a 3-state classification, fallible
  `apply_influence`, and a `system_health` equal to the mean activity.
* `src/rust-core/src/zone.rs` + `src/rust-core/src/engine.rs` — a
  4-state `Zone` with `from_activity`, an engine whose `update` corrects
  from the raw activity (no EMA), an infallible `apply_influence`, and
  `get_system_metrics` (mean activity and homeostatic balance).
* `src/rust-core/src/main_optimized.rs` — `BHCS` whose `get_state` reports
  `system_health` as the fraction of zones whose stored state is `"CALM"`.

`f64` values are modelled as rationals; the only floating-point special value
the claims touch is the NaN produced by dividing by a zero zone count, which
is modelled explicitly by the type `F` below.  Randomness (`rand::random`)
and wall-clock time are modelled as explicit parameters.
-/

/-- Rust `f64::clamp(0.0, 1.0)` on finite values: values below 0 go to 0,
values above 1 go to 1, everything else is unchanged. -/
def clamp01 (x : ℚ) : ℚ := min 1 (max 0 x)

/-- A (finite-or-special) IEEE double as produced by the metric computations:
either a finite value (modelled exactly as a rational), NaN, or an infinity. -/
inductive F where
  | fin : ℚ → F
  | nan : F
  | posInf : F
  | negInf : F
  deriving DecidableEq

/-- IEEE division of a finite sum by a (cast) zone count, as in
`sum::<f64>() / len as f64`: `0.0/0.0` is NaN, `x/0.0` for `x ≠ 0` is a
signed infinity, and division by a nonzero count is exact. -/
def fdivNat (a : ℚ) (n : ℕ) : F :=
  if n = 0 then
    if a = 0 then F.nan else if 0 < a then F.posInf else F.negInf
  else F.fin (a / n)

/-- `(x - t).abs()` on the model: NaN propagates through subtraction and
absolute value, infinities have infinite absolute value. -/
def fabsSub (x : F) (t : ℚ) : F :=
  match x with
  | F.fin q => F.fin |q - t|
  | F.nan => F.nan
  | F.posInf => F.posInf
  | F.negInf => F.posInf

theorem clamp01_nonneg (x : ℚ) : 0 ≤ clamp01 x :=
  le_min (by norm_num) (le_max_left 0 x)

theorem clamp01_le_one (x : ℚ) : clamp01 x ≤ 1 :=
  min_le_left _ _

theorem clamp01_of_mem (x : ℚ) (h0 : 0 ≤ x) (h1 : x ≤ 1) : clamp01 x = x := by
  unfold clamp01
  rw [max_eq_right h0, min_eq_right h1]

theorem clamp01_eq_of_interior (x y : ℚ) (h : clamp01 x = y) (h0 : 0 < y) (h1 : y < 1) :
    x = y := by
  unfold clamp01 at h
  rcases le_total x 0 with hx | hx
  · rw [max_eq_left hx, min_eq_right (by norm_num : (0:ℚ) ≤ 1)] at h
    linarith
  · rw [max_eq_right hx] at h
    rcases le_total x 1 with hx1 | hx1
    · rwa [min_eq_right hx1] at h
    · rw [min_eq_left hx1] at h
      linarith

namespace CityCore

/-- `ZoneState` of `src/city_core/src/main.rs` (3-state variant). -/
inductive ZoneState where
  | CALM
  | OVERSTIMULATED
  | EMERGENT
  deriving DecidableEq

/-- `Zone` of `src/city_core/src/main.rs`. -/
structure Zone where
  id : ℕ
  activity : ℚ
  state : ZoneState
  name : String
  deriving DecidableEq

/-- The state-classification `match` inside `HomeostaticEngine::update` of
`src/city_core/src/main.rs`: `< 0.4` CALM, `< 0.7` OVERSTIMULATED,
otherwise EMERGENT. -/
def classify (x : ℚ) : ZoneState :=
  if x < 2/5 then ZoneState.CALM
  else if x < 7/10 then ZoneState.OVERSTIMULATED
  else ZoneState.EMERGENT

/-- `HomeostaticEngine` of `src/city_core/src/main.rs`: zones plus one EMA
accumulator per zone (index-aligned), the target and the learning rate. -/
structure HomeostaticEngine where
  zones : List Zone
  ema : List ℚ
  target : ℚ
  eta : ℚ
  deriving DecidableEq

/-- `HomeostaticEngine::new`: the five seeded zones; every EMA accumulator is
initialized to `0.5` (not to the seed activity). -/
def HomeostaticEngine.new : HomeostaticEngine where
  zones :=
    [ ⟨0, 3/10, ZoneState.CALM, "Downtown"⟩,
      ⟨1, 3/5, ZoneState.OVERSTIMULATED, "Industrial"⟩,
      ⟨2, 1/5, ZoneState.CALM, "Residential"⟩,
      ⟨3, 4/5, ZoneState.EMERGENT, "Commercial"⟩,
      ⟨4, 2/5, ZoneState.CALM, "Parks"⟩ ]
  ema := [1/2, 1/2, 1/2, 1/2, 1/2]
  target := 1/2
  eta := 1/10

/-- One iteration of the loop body of `HomeostaticEngine::update` on a single
zone and its EMA accumulator. -/
def tickZone (target eta : ℚ) (z : Zone) (s : ℚ) : Zone × ℚ :=
  let s' := 97/100 * s + 3/100 * z.activity
  let error := target - s'
  let adjustment := eta * error
  let a' := clamp01 (z.activity + adjustment)
  ({ z with activity := a', state := classify a' }, s')

/-- The loop of `HomeostaticEngine::update`, walking the zone list and the
(index-aligned) EMA list together. -/
def updateAux (target eta : ℚ) : List Zone → List ℚ → List Zone × List ℚ
  | z :: zs, s :: ss =>
    let p := tickZone target eta z s
    let rest := updateAux target eta zs ss
    (p.1 :: rest.1, p.2 :: rest.2)
  | zs, ss => (zs, ss)

/-- `HomeostaticEngine::update` of `src/city_core/src/main.rs`. -/
def HomeostaticEngine.update (e : HomeostaticEngine) : HomeostaticEngine :=
  let p := updateAux e.target e.eta e.zones e.ema
  { e with zones := p.1, ema := p.2 }

/-- `HomeostaticEngine::apply_influence` of `src/city_core/src/main.rs`:
errors out on an out-of-range id, otherwise adds the influence to the zone's
activity and clamps.  Note it does not recompute the zone's `state`. -/
def HomeostaticEngine.applyInfluence (e : HomeostaticEngine) (zone_id : ℕ)
    (influence : ℚ) : Except String HomeostaticEngine :=
  if h : zone_id ≥ e.zones.length then
    Except.error ("Zone " ++ toString zone_id ++ " not found")
  else
    let z := e.zones.get ⟨zone_id, by omega⟩
    Except.ok { e with
      zones := e.zones.set zone_id { z with activity := clamp01 (z.activity + influence) } }

/-- `CityState` of `src/city_core/src/main.rs` (the wall-clock timestamp is
not modelled). -/
structure CityState where
  zones : List Zone
  system_health : F
  deriving DecidableEq

/-- `HomeostaticEngine::get_state`: `system_health` is the mean activity. -/
def HomeostaticEngine.getState (e : HomeostaticEngine) : CityState where
  zones := e.zones
  system_health := fdivNat (e.zones.map Zone.activity).sum e.zones.length

/-- An external call into the engine: a scheduler tick or an influence
request. -/
inductive Op where
  | tick : Op
  | influence : ℕ → ℚ → Op

/-- Effect of one call on the engine; a failed `apply_influence` leaves the
engine unchanged (the `Err` early-return mutates nothing). -/
def stepOp (e : HomeostaticEngine) : Op → HomeostaticEngine
  | Op.tick => e.update
  | Op.influence i d =>
    match e.applyInfluence i d with
    | Except.ok e' => e'
    | Except.error _ => e

/-- Run a sequence of calls against the engine. -/
def run (e : HomeostaticEngine) (ops : List Op) : HomeostaticEngine :=
  ops.foldl stepOp e

/-- All activities and all EMA accumulators lie in `[0,1]`. -/
def InRange (e : HomeostaticEngine) : Prop :=
  (∀ z ∈ e.zones, 0 ≤ z.activity ∧ z.activity ≤ 1) ∧
    (∀ s ∈ e.ema, 0 ≤ s ∧ s ≤ 1)

end CityCore

namespace RustCore

/-- `ZoneState` of `src/rust-core/src/zone.rs` (4-state variant). -/
inductive ZoneState where
  | Calm
  | Overstimulated
  | Emergent
  | Critical
  deriving DecidableEq

/-- `ZoneState::from_activity` of `src/rust-core/src/zone.rs`. -/
def ZoneState.from_activity (activity : ℚ) : ZoneState :=
  if activity < 2/5 then ZoneState.Calm
  else if activity < 7/10 then ZoneState.Overstimulated
  else if activity < 9/10 then ZoneState.Emergent
  else ZoneState.Critical

/-- `Zone` of `src/rust-core/src/zone.rs`; `last_update` is the Unix
timestamp recorded at the last mutation. -/
structure Zone where
  id : ℕ
  activity : ℚ
  target : ℚ
  state : ZoneState
  last_update : ℤ
  deriving DecidableEq

/-- `Zone::new` of `src/rust-core/src/zone.rs`.  `r` models the value drawn
from `rand::random::<f64>()` (a sample in `[0,1)`), `now` the clock reading:
the initial activity is `r * 0.6 + 0.2`. -/
def Zone.new (id : ℕ) (r : ℚ) (now : ℤ) : Zone :=
  let activity := r * (3/5) + 1/5
  { id := id
    activity := activity
    target := 1/2
    state := ZoneState.from_activity activity
    last_update := now }

/-- `Zone::apply_adjustment` of `src/rust-core/src/zone.rs`: clamp the
adjusted activity, reclassify, stamp the time. -/
def Zone.apply_adjustment (z : Zone) (adjustment : ℚ) (now : ℤ) : Zone :=
  let a' := clamp01 (z.activity + adjustment)
  { z with activity := a', state := ZoneState.from_activity a', last_update := now }

/-- `Zone::apply_influence` of `src/rust-core/src/zone.rs`: clamp the
perturbed activity, reclassify, stamp the time. -/
def Zone.apply_influence (z : Zone) (influence : ℚ) (now : ℤ) : Zone :=
  let a' := clamp01 (z.activity + influence)
  { z with activity := a', state := ZoneState.from_activity a', last_update := now }

/-- `HomeostaticConfig` of `src/rust-core/src/engine.rs`; the zone count is
an arbitrary `usize` (0 is permitted). -/
structure HomeostaticConfig where
  target_calmness : ℚ
  learning_rate : ℚ
  zones : ℕ
  deriving DecidableEq

/-- `HomeostaticConfig::default`. -/
def HomeostaticConfig.default : HomeostaticConfig :=
  { target_calmness := 1/2, learning_rate := 1/50, zones := 5 }

/-- `HomeostaticEngine` of `src/rust-core/src/engine.rs`: a zone vector and
the configuration.  Note there is no EMA accumulator in this engine. -/
structure HomeostaticEngine where
  zones : List Zone
  config : HomeostaticConfig
  deriving DecidableEq

/-- `HomeostaticEngine::new` of `src/rust-core/src/engine.rs`: one freshly
drawn zone per index.  `r i` models the random sample used for zone `i`. -/
def HomeostaticEngine.new (config : HomeostaticConfig) (r : ℕ → ℚ) (now : ℤ) :
    HomeostaticEngine :=
  { zones := (List.range config.zones).map (fun i => Zone.new i (r i) now)
    config := config }

/-- `HomeostaticEngine::update` of `src/rust-core/src/engine.rs`: the error is
computed from the zone's raw `activity` (this engine has no smoothing
accumulator), scaled by the learning rate, and applied through
`Zone::apply_adjustment`. -/
def HomeostaticEngine.update (e : HomeostaticEngine) (now : ℤ) : HomeostaticEngine :=
  { e with zones := e.zones.map (fun z =>
      let error := e.config.target_calmness - z.activity
      let adjustment := e.config.learning_rate * error
      z.apply_adjustment adjustment now) }

/-- `HomeostaticEngine::apply_influence` of `src/rust-core/src/engine.rs`:
`if let Some(zone) = self.zones.get_mut(zone_id)` — an out-of-range id is
silently ignored (the function is infallible and returns unit). -/
def HomeostaticEngine.apply_influence (e : HomeostaticEngine) (zone_id : ℕ)
    (influence : ℚ) (now : ℤ) : HomeostaticEngine :=
  if h : zone_id < e.zones.length then
    let z := e.zones.get ⟨zone_id, h⟩
    { e with zones := e.zones.set zone_id (z.apply_influence influence now) }
  else e

/-- `SystemMetrics` of `src/rust-core/src/engine.rs`. -/
structure SystemMetrics where
  average_activity : F
  total_zones : ℕ
  homeostatic_balance : F
  timestamp : ℤ
  deriving DecidableEq

/-- `HomeostaticEngine::get_system_metrics` of `src/rust-core/src/engine.rs`:
the mean activity (an IEEE division by the zone count, with no emptiness
guard) and the absolute deviation of the mean from the target. -/
def HomeostaticEngine.get_system_metrics (e : HomeostaticEngine) (now : ℤ) :
    SystemMetrics :=
  let avg := fdivNat (e.zones.map Zone.activity).sum e.zones.length
  { average_activity := avg
    total_zones := e.zones.length
    homeostatic_balance := fabsSub avg e.config.target_calmness
    timestamp := now }

/-- Every zone's stored state agrees with the classification of its current
activity. -/
def StateConsistent (e : HomeostaticEngine) : Prop :=
  ∀ z ∈ e.zones, z.state = ZoneState.from_activity z.activity

end RustCore

namespace Optimized

/-- `Zone` of `src/rust-core/src/main_optimized.rs`; its state is a plain
string. -/
structure Zone where
  id : ℕ
  activity : ℚ
  target : ℚ
  state : String
  last_update : ℤ
  deriving DecidableEq

/-- `Zone::determine_state` of `src/rust-core/src/main_optimized.rs`. -/
def determine_state (activity : ℚ) : String :=
  if activity < 2/5 then "CALM"
  else if activity < 7/10 then "OVERSTIMULATED"
  else if activity < 9/10 then "EMERGENT"
  else "CRITICAL"

/-- `BHCS` of `src/rust-core/src/main_optimized.rs`. -/
structure BHCS where
  zones : List Zone
  learning_rate : ℚ
  deriving DecidableEq

/-- The metrics part of `SystemState` of `src/rust-core/src/main_optimized.rs`. -/
structure SystemMetrics where
  average_activity : F
  system_health : F
  homeostatic_balance : F
  timestamp : ℤ
  deriving DecidableEq

/-- The metric computations of `BHCS::get_state` of
`src/rust-core/src/main_optimized.rs`: `system_health` is the number of zones
whose stored state is `"CALM"` divided by the zone count;
`homeostatic_balance` is the absolute deviation of mean activity from 0.5. -/
def BHCS.get_state_metrics (b : BHCS) (now : ℤ) : SystemMetrics :=
  let avg := fdivNat (b.zones.map Zone.activity).sum b.zones.length
  let calm_zones := (b.zones.filter (fun z => z.state == "CALM")).length
  { average_activity := avg
    system_health := fdivNat (calm_zones : ℚ) b.zones.length
    homeostatic_balance := fabsSub avg (1/2)
    timestamp := now }

end Optimized

namespace CityCore

theorem updateAux_getElem? (target eta : ℚ) :
    ∀ (zs : List Zone) (ss : List ℚ) (i : ℕ) (z : Zone) (s : ℚ),
      zs[i]? = some z → ss[i]? = some s →
      (updateAux target eta zs ss).1[i]? = some (tickZone target eta z s).1 ∧
      (updateAux target eta zs ss).2[i]? = some (tickZone target eta z s).2
  | [], _, i, _, _, hz, _ => by simp at hz
  | _ :: _, [], i, _, _, _, hs => by simp at hs
  | zh :: zt, sh :: st, 0, z, s, hz, hs => by
    simp only [List.getElem?_cons_zero, Option.some_inj] at hz hs
    subst hz
    subst hs
    simp [updateAux]
  | zh :: zt, sh :: st, i + 1, z, s, hz, hs => by
    simp only [List.getElem?_cons_succ] at hz hs
    simpa [updateAux] using updateAux_getElem? target eta zt st i z s hz hs

theorem updateAux_nil_left (target eta : ℚ) : ∀ (ss : List ℚ),
    updateAux target eta [] ss = ([], ss)
  | [] => rfl
  | _ :: _ => rfl

theorem updateAux_nil_right (target eta : ℚ) : ∀ (zs : List Zone),
    updateAux target eta zs [] = (zs, [])
  | [] => rfl
  | _ :: _ => rfl

theorem updateAux_cons (target eta : ℚ) (z : Zone) (zs : List Zone) (s : ℚ) (ss : List ℚ) :
    updateAux target eta (z :: zs) (s :: ss) =
      ((tickZone target eta z s).1 :: (updateAux target eta zs ss).1,
        (tickZone target eta z s).2 :: (updateAux target eta zs ss).2) := rfl

theorem updateAux_bounds (target eta : ℚ) :
    ∀ (zs : List Zone) (ss : List ℚ),
      (∀ z ∈ zs, 0 ≤ z.activity ∧ z.activity ≤ 1) →
      (∀ s ∈ ss, 0 ≤ s ∧ s ≤ 1) →
      (∀ z ∈ (updateAux target eta zs ss).1, 0 ≤ z.activity ∧ z.activity ≤ 1) ∧
        (∀ s ∈ (updateAux target eta zs ss).2, 0 ≤ s ∧ s ≤ 1)
  | [], ss, hz, hs => by
    rw [updateAux_nil_left]
    exact ⟨by simp, hs⟩
  | zh :: zt, [], hz, hs => by
    rw [updateAux_nil_right]
    exact ⟨hz, by simp⟩
  | zh :: zt, sh :: st, hz, hs => by
    obtain ⟨⟨ha0, ha1⟩, hzt⟩ := List.forall_mem_cons.mp hz
    obtain ⟨⟨hs0, hs1⟩, hst⟩ := List.forall_mem_cons.mp hs
    have ih := updateAux_bounds target eta zt st hzt hst
    rw [updateAux_cons]
    have ht2 : (tickZone target eta zh sh).2 = 97/100 * sh + 3/100 * zh.activity := rfl
    refine ⟨List.forall_mem_cons.mpr ⟨?_, ih.1⟩, List.forall_mem_cons.mpr ⟨?_, ih.2⟩⟩
    · exact ⟨clamp01_nonneg _, clamp01_le_one _⟩
    · rw [ht2]
      constructor <;> linarith

theorem update_zones (e : HomeostaticEngine) :
    e.update.zones = (updateAux e.target e.eta e.zones e.ema).1 := rfl

theorem update_ema (e : HomeostaticEngine) :
    e.update.ema = (updateAux e.target e.eta e.zones e.ema).2 := rfl

theorem applyInfluence_ok (e : HomeostaticEngine) (i : ℕ) (d : ℚ) (h : i < e.zones.length) :
    e.applyInfluence i d = Except.ok { e with
      zones := e.zones.set i
        { e.zones.get ⟨i, h⟩ with
          activity := clamp01 ((e.zones.get ⟨i, h⟩).activity + d) } } := by
  unfold HomeostaticEngine.applyInfluence
  rw [dif_neg (by omega)]

theorem applyInfluence_err (e : HomeostaticEngine) (i : ℕ) (d : ℚ) (h : e.zones.length ≤ i) :
    e.applyInfluence i d = Except.error ("Zone " ++ toString i ++ " not found") := by
  unfold HomeostaticEngine.applyInfluence
  rw [dif_pos (by omega)]

theorem stepOp_inRange (e : HomeostaticEngine) (op : Op) (h : InRange e) :
    InRange (stepOp e op) := by
  obtain ⟨hz, hs⟩ := h
  cases op with
  | tick =>
    have hb := updateAux_bounds e.target e.eta e.zones e.ema hz hs
    exact ⟨by rw [stepOp, update_zones]; exact hb.1, by rw [stepOp, update_ema]; exact hb.2⟩
  | influence i d =>
    by_cases hi : i < e.zones.length
    · rw [stepOp, applyInfluence_ok e i d hi]
      refine ⟨?_, hs⟩
      intro z' hz'
      rcases List.mem_or_eq_of_mem_set hz' with hmem | rfl
      · exact hz z' hmem
      · exact ⟨clamp01_nonneg _, clamp01_le_one _⟩
    · rw [stepOp, applyInfluence_err e i d (by omega)]
      exact ⟨hz, hs⟩

theorem run_inRange : ∀ (ops : List Op) (e : HomeostaticEngine),
    InRange e → InRange (run e ops)
  | [], _, h => h
  | op :: ops, e, h => run_inRange ops (stepOp e op) (stepOp_inRange e op h)

theorem new_inRange : InRange HomeostaticEngine.new := by
  norm_num [InRange, HomeostaticEngine.new]

end CityCore

/-- C3: for every sequence of `tick`/`apply_influence` calls starting from the
freshly constructed city_core engine, every zone's activity and every EMA
accumulator remain in `[0,1]` after every call: each mutator clamps the
activity, and the EMA update is a convex combination of in-range values. -/
theorem cityCore_activities_and_ema_stay_in_unit_interval (ops : List CityCore.Op) :
    CityCore.InRange (CityCore.run CityCore.HomeostaticEngine.new ops) :=
  CityCore.run_inRange ops CityCore.HomeostaticEngine.new CityCore.new_inRange

/-- C1 (amended, city_core side): one `update` of the city_core engine acts on
every zone exactly by the claimed steps — the EMA accumulator becomes
`0.97·smoothed + 0.03·activity`, and the activity is corrected by
`eta·(target - smoothed')` computed from the *smoothed* signal, clamped to
`[0,1]` and reclassified. -/
theorem cityCore_tick_follows_claimed_steps (e : CityCore.HomeostaticEngine)
    (i : ℕ) (z : CityCore.Zone) (s : ℚ)
    (hz : e.zones[i]? = some z) (hs : e.ema[i]? = some s) :
    e.update.ema[i]? = some (97/100 * s + 3/100 * z.activity) ∧
    e.update.zones[i]? = some { z with
      activity := clamp01 (z.activity + e.eta * (e.target - (97/100 * s + 3/100 * z.activity)))
      state := CityCore.classify
        (clamp01 (z.activity + e.eta * (e.target - (97/100 * s + 3/100 * z.activity)))) } := by
  have h := CityCore.updateAux_getElem? e.target e.eta e.zones e.ema i z s hz hs
  constructor
  · rw [CityCore.update_ema]
    simpa [CityCore.tickZone] using h.2
  · rw [CityCore.update_zones]
    simpa [CityCore.tickZone] using h.1

/-- Witness for the C1 amended theorem at the seeded engine: zone 0 has
activity 0.3 and EMA accumulator 0.5, and after one tick the accumulator is
0.494. -/
theorem cityCore_tick_follows_claimed_steps_witness :
    CityCore.HomeostaticEngine.new.update.ema[0]? =
      some (97/100 * (1/2) + 3/100 * (3/10)) :=
  (cityCore_tick_follows_claimed_steps CityCore.HomeostaticEngine.new 0
    ⟨0, 3/10, CityCore.ZoneState.CALM, "Downtown"⟩ (1/2) rfl rfl).1

/-- Modelled from the spec §4.3 (the tick contract asserted by claim C1): one
claimed tick step on a single zone, acting on an (activity, smoothed) pair —
blend the accumulator with weights 0.97/0.03, then correct the activity by
`eta·(target - smoothed')` computed from the *smoothed* signal, and clamp. -/
def specTickStep (target eta : ℚ) (p : ℚ × ℚ) : ℚ × ℚ :=
  let s' := 97/100 * p.2 + 3/100 * p.1
  (clamp01 (p.1 + eta * (target - s')), s')

/-- A single-zone rust-core engine (target 0.5, learning rate 0.1) whose zone
sits at activity 0.9, built through the public API: construct a one-zone
engine with random sample 0 (so the zone starts at activity 0.2) and apply an
influence of 0.7. -/
def rcSingle : RustCore.HomeostaticEngine :=
  (RustCore.HomeostaticEngine.new ⟨1/2, 1/10, 1⟩ (fun _ => 0) 0).apply_influence 0 (7/10) 0

/-- Activity of the first zone of a rust-core engine (0 if there is none). -/
def rcFirstActivity (e : RustCore.HomeostaticEngine) : ℚ :=
  match e.zones with
  | z :: _ => z.activity
  | [] => 0

/-- The single-zone engine after `n` scheduler ticks. -/
def rcTickIter (n : ℕ) : RustCore.HomeostaticEngine :=
  (fun e => RustCore.HomeostaticEngine.update e 0)^[n] rcSingle

/-- Closed form of the single-zone activity after `n` ticks. -/
def rcA (n : ℕ) : ℚ := 1/2 + (2/5) * (9/10)^n

theorem rcSingle_eq :
    rcSingle = ⟨[⟨0, 9/10, 1/2, RustCore.ZoneState.Critical, 0⟩], ⟨1/2, 1/10, 1⟩⟩ := by
  norm_num [rcSingle, RustCore.HomeostaticEngine.new, RustCore.HomeostaticEngine.apply_influence,
    RustCore.Zone.new, RustCore.Zone.apply_influence, RustCore.ZoneState.from_activity,
    clamp01, List.range_succ]

theorem rcA_bounds (n : ℕ) : 1/2 < rcA n ∧ rcA n ≤ 9/10 := by
  have h0 : (0:ℚ) < (9/10)^n := pow_pos (by norm_num) n
  have h1 : ((9:ℚ)/10)^n ≤ 1 := pow_le_one₀ (by norm_num) (by norm_num)
  unfold rcA
  constructor <;> nlinarith

theorem rcTickIter_eq (n : ℕ) :
    rcTickIter n =
      ⟨[⟨0, rcA n, 1/2, RustCore.ZoneState.from_activity (rcA n), 0⟩], ⟨1/2, 1/10, 1⟩⟩ := by
  induction n with
  | zero =>
    rw [rcTickIter, Function.iterate_zero_apply, rcSingle_eq]
    have ha : rcA 0 = 9/10 := by norm_num [rcA]
    rw [ha]
    norm_num [RustCore.ZoneState.from_activity]
  | succ n ih =>
    rw [rcTickIter, Function.iterate_succ_apply', ← rcTickIter, ih]
    have hb := rcA_bounds (n + 1)
    have key : rcA n + 1/10 * (1/2 - rcA n) = rcA (n + 1) := by
      unfold rcA
      ring
    have hcl : clamp01 (rcA n + 1/10 * (1/2 - rcA n)) = rcA (n + 1) := by
      rw [key]
      exact clamp01_of_mem _ (by linarith [hb.1]) (by linarith [hb.2])
    simp only [RustCore.HomeostaticEngine.update, RustCore.Zone.apply_adjustment,
      List.map_cons, List.map_nil, hcl]

theorem rcFirstActivity_iter (n : ℕ) : rcFirstActivity (rcTickIter n) = rcA n := by
  rw [rcTickIter_eq]
  rfl

/-- C9: starting from a single rust-core zone at activity 0.9 with target 0.5
and learning rate 0.1, repeated ticks keep the activity in `[0,1]`, above the
target, monotonically non-increasing toward 0.5, and within 0.01 of 0.5 after
200 ticks (the error contracts by the factor 0.9 each tick). -/
theorem rustCore_single_zone_converges_monotonically :
    (∀ n, 0 ≤ rcFirstActivity (rcTickIter n) ∧ rcFirstActivity (rcTickIter n) ≤ 1) ∧
    (∀ n, 1/2 ≤ rcFirstActivity (rcTickIter n)) ∧
    (∀ n, rcFirstActivity (rcTickIter (n + 1)) ≤ rcFirstActivity (rcTickIter n)) ∧
    |rcFirstActivity (rcTickIter 200) - 1/2| < 1/100 := by
  have hb : ∀ n, 1/2 < rcA n ∧ rcA n ≤ 9/10 := rcA_bounds
  refine ⟨fun n => ?_, fun n => ?_, fun n => ?_, ?_⟩
  · rw [rcFirstActivity_iter]
    exact ⟨by linarith [(hb n).1], by linarith [(hb n).2]⟩
  · rw [rcFirstActivity_iter]
    linarith [(hb n).1]
  · rw [rcFirstActivity_iter, rcFirstActivity_iter]
    have h0 : (0:ℚ) ≤ (9/10)^n := le_of_lt (pow_pos (by norm_num) n)
    have hm : ((9:ℚ)/10)^n * (9/10) ≤ (9/10)^n := mul_le_of_le_one_right h0 (by norm_num)
    unfold rcA
    rw [pow_succ]
    nlinarith
  · rw [rcFirstActivity_iter]
    have h0 : (0:ℚ) < (9/10)^200 := pow_pos (by norm_num) 200
    have h200 : ((9:ℚ)/10)^200 < 1/40 := by norm_num
    unfold rcA
    rw [abs_of_nonneg (by nlinarith)]
    nlinarith

/-- C1 counterexample: the rust-core engine's `update` does not perform the
claimed EMA-smoothed correction.  From the single zone at activity 0.9 the
code produces activities 0.86 and then 0.824, but no initial value of a
smoothing accumulator makes the claimed EMA-driven step list reproduce that
two-tick trace (the first tick forces `smoothed = 0.9`, and then the claimed
second tick would give 0.82012 ≠ 0.824: the code corrects from the raw
activity, with no accumulator at all). -/
theorem rustCore_tick_contradicts_ema_claim :
    rcFirstActivity (rcTickIter 1) = 43/50 ∧
    rcFirstActivity (rcTickIter 2) = 103/125 ∧
    ¬ ∃ s0 : ℚ,
        (specTickStep (1/2) (1/10) (9/10, s0)).1 = 43/50 ∧
        (specTickStep (1/2) (1/10) (specTickStep (1/2) (1/10) (9/10, s0))).1 = 103/125 := by
  refine ⟨by rw [rcFirstActivity_iter]; norm_num [rcA], by rw [rcFirstActivity_iter]; norm_num [rcA], ?_⟩
  rintro ⟨s0, h1, h2⟩
  have hx1 : (9:ℚ)/10 + 1/10 * (1/2 - (97/100 * s0 + 3/100 * (9/10))) = 43/50 := by
    refine clamp01_eq_of_interior _ _ ?_ (by norm_num) (by norm_num)
    simpa [specTickStep] using h1
  have hs0 : s0 = 9/10 := by linarith
  subst hs0
  norm_num [specTickStep, clamp01, min_def, max_def] at h2

/-- A concrete five-zone rust-core engine: default configuration, every random
sample 0 (so every zone starts at activity 0.2), constructed at time 0. -/
def rcE5 : RustCore.HomeostaticEngine :=
  RustCore.HomeostaticEngine.new RustCore.HomeostaticConfig.default (fun _ => 0) 0

theorem rcE5_length : rcE5.zones.length = 5 := by
  simp [rcE5, RustCore.HomeostaticEngine.new, RustCore.HomeostaticConfig.default]

/-- C2 counterexample: city_core's `apply_influence` mutates the activity but
never recomputes the stored state.  Pushing zone 0 of the seeded engine from
activity 0.3 to 0.5 leaves its stored state `CALM`, while classifying 0.5
yields `OVERSTIMULATED` — so after this mutating call the stored state is not
`classify(activity)` (under the 3-state scheme of this file, and a fortiori
under the claimed 4-state scheme, where 0.5 is also Overstimulated). -/
theorem cityCore_influence_leaves_stale_state :
    (CityCore.stepOp CityCore.HomeostaticEngine.new
        (CityCore.Op.influence 0 (1/5))).zones[0]?.map CityCore.Zone.activity = some (1/2) ∧
    (CityCore.stepOp CityCore.HomeostaticEngine.new
        (CityCore.Op.influence 0 (1/5))).zones[0]?.map CityCore.Zone.state =
      some CityCore.ZoneState.CALM ∧
    CityCore.classify (1/2) = CityCore.ZoneState.OVERSTIMULATED := by
  refine ⟨?_, ?_, by norm_num [CityCore.classify]⟩ <;>
    norm_num [CityCore.stepOp, CityCore.HomeostaticEngine.applyInfluence,
      CityCore.HomeostaticEngine.new, clamp01]

/-- C2 (amended): in the rust-core engine every mutating operation re-derives
the stored state, so `state = from_activity(activity)` (the 4-state half-open
threshold scheme) holds for every zone after `update` and `apply_influence`,
and already at construction.  (In city_core this fails: its `apply_influence`
does not recompute the state.) -/
theorem rustCore_state_always_classifies_activity
    (e : RustCore.HomeostaticEngine) (h : RustCore.StateConsistent e)
    (i : ℕ) (d : ℚ) (now : ℤ)
    (cfg : RustCore.HomeostaticConfig) (r : ℕ → ℚ) (t0 : ℤ) :
    RustCore.StateConsistent (e.update now) ∧
    RustCore.StateConsistent (e.apply_influence i d now) ∧
    RustCore.StateConsistent (RustCore.HomeostaticEngine.new cfg r t0) := by
  unfold RustCore.StateConsistent at *
  refine ⟨?_, ?_, ?_⟩
  · intro z hz
    simp only [RustCore.HomeostaticEngine.update, List.mem_map] at hz
    obtain ⟨w, hw, rfl⟩ := hz
    rfl
  · unfold RustCore.HomeostaticEngine.apply_influence
    split
    · intro z hz
      rcases List.mem_or_eq_of_mem_set hz with hmem | rfl
      · exact h z hmem
      · rfl
    · exact h
  · intro z hz
    simp only [RustCore.HomeostaticEngine.new, List.mem_map] at hz
    obtain ⟨w, hw, rfl⟩ := hz
    rfl

/-- Witness for the C2 amended theorem on the concrete five-zone engine. -/
theorem rustCore_state_always_classifies_activity_witness :
    RustCore.StateConsistent (rcE5.update 0) ∧
    RustCore.StateConsistent (rcE5.apply_influence 0 (1/4) 0) := by
  have h0 : RustCore.StateConsistent rcE5 := by
    unfold RustCore.StateConsistent rcE5 RustCore.HomeostaticEngine.new
    intro z hz
    simp only [List.mem_map] at hz
    obtain ⟨w, hw, rfl⟩ := hz
    rfl
  have h := rustCore_state_always_classifies_activity rcE5 h0 0 (1/4) 0
    RustCore.HomeostaticConfig.default (fun _ => 0) 0
  exact ⟨h.1, h.2.1⟩

/-- C4 (amended): city_core's `apply_influence` returns an out-of-range error
exactly when `zone_id ≥ N`, mutating nothing on failure (the error is an early
return), and always succeeds for `zone_id < N`; rust-core's `apply_influence`,
in contrast, never signals an error: an out-of-range id is silently ignored,
also leaving the engine unchanged. -/
theorem applyInfluence_error_behaviour
    (e : CityCore.HomeostaticEngine) (r : RustCore.HomeostaticEngine)
    (i : ℕ) (d : ℚ) (now : ℤ) :
    (e.zones.length ≤ i →
      e.applyInfluence i d = Except.error ("Zone " ++ toString i ++ " not found")) ∧
    (i < e.zones.length → ∃ e', e.applyInfluence i d = Except.ok e') ∧
    (r.zones.length ≤ i → r.apply_influence i d now = r) := by
  refine ⟨CityCore.applyInfluence_err e i d,
    fun h => ⟨_, CityCore.applyInfluence_ok e i d h⟩, fun h => ?_⟩
  unfold RustCore.HomeostaticEngine.apply_influence
  rw [dif_neg (by omega)]

/-- Witness for the C4 amended theorem: index 5 is rejected by the five-zone
city_core engine and silently ignored by the five-zone rust-core engine,
while index 0 succeeds. -/
theorem applyInfluence_error_behaviour_witness :
    CityCore.HomeostaticEngine.new.applyInfluence 5 (1/10) =
      Except.error ("Zone " ++ toString 5 ++ " not found") ∧
    (∃ e', CityCore.HomeostaticEngine.new.applyInfluence 0 (1/10) = Except.ok e') ∧
    rcE5.apply_influence 5 (1/10) 0 = rcE5 := by
  have h5 := applyInfluence_error_behaviour CityCore.HomeostaticEngine.new rcE5 5 (1/10) 0
  have h0 := applyInfluence_error_behaviour CityCore.HomeostaticEngine.new rcE5 0 (1/10) 0
  refine ⟨h5.1 (by norm_num [CityCore.HomeostaticEngine.new]), ?_, h5.2.2 (by rw [rcE5_length])⟩
  exact h0.2.1 (by norm_num [CityCore.HomeostaticEngine.new])

/-- C4 counterexample: rust-core's `apply_influence` called with the
out-of-range zone id `N = 5` does not fail — it has no error channel at all
and returns with the engine unchanged, where the claim demands an
`OutOfRange` failure. -/
theorem rustCore_applyInfluence_out_of_range_is_silent_noop :
    rcE5.apply_influence 5 (1/10) 0 = rcE5 := by
  unfold RustCore.HomeostaticEngine.apply_influence
  rw [dif_neg (by rw [rcE5_length]; omega)]

/-- C5 counterexample: after one tick of the seeded city_core engine, zone 0's
EMA value is 0.494 (not the claimed 0.3) and its activity 0.3006 (not the
claimed 0.32): the EMA accumulators are initialized to 0.5, not to the seed
activities, so the claimed arithmetic does not match the code. -/
theorem cityCore_first_tick_differs_from_spec_example :
    CityCore.HomeostaticEngine.new.update.ema[0]? = some (247/500) ∧
    (247:ℚ)/500 ≠ 3/10 ∧
    CityCore.HomeostaticEngine.new.update.zones[0]?.map CityCore.Zone.activity =
      some (1503/5000) ∧
    (1503:ℚ)/5000 ≠ 8/25 := by
  refine ⟨?_, by norm_num, ?_, by norm_num⟩ <;>
    norm_num [CityCore.HomeostaticEngine.update, CityCore.HomeostaticEngine.new,
      CityCore.updateAux, CityCore.tickZone, clamp01]

/-- C5 (amended): with the EMA accumulators initialized to 0.5, after one tick
of the seeded city_core engine (target 0.5, eta 0.1, alpha 0.97) zone 0 has
smoothed value 0.494, error 0.006, adjustment 0.0006, activity 0.3006, and
state Calm. -/
theorem cityCore_first_tick_zone0_values :
    CityCore.HomeostaticEngine.new.update.ema[0]? = some (247/500) ∧
    CityCore.HomeostaticEngine.new.target - 247/500 = 3/500 ∧
    CityCore.HomeostaticEngine.new.eta * (3/500) = 3/5000 ∧
    CityCore.HomeostaticEngine.new.update.zones[0]? =
      some ⟨0, 1503/5000, CityCore.ZoneState.CALM, "Downtown"⟩ := by
  refine ⟨?_, by norm_num [CityCore.HomeostaticEngine.new], by norm_num [CityCore.HomeostaticEngine.new], ?_⟩ <;>
    norm_num [CityCore.HomeostaticEngine.update, CityCore.HomeostaticEngine.new,
      CityCore.updateAux, CityCore.tickZone, CityCore.classify, clamp01]

/-- Modelled from the spec §4.5, `system_health` variant 1: the fraction of
zones currently classified Calm (activity in `[0, 0.4)`), for a city_core
engine. -/
def ccSpecCalmFraction (e : CityCore.HomeostaticEngine) : ℚ :=
  ((e.zones.filter (fun z => decide (z.activity < 2/5))).length : ℚ) / e.zones.length

/-- Modelled from the spec §4.5, `system_health` variant 2:
`1 - homeostatic_balance`, i.e. one minus the absolute deviation of the mean
activity from the target, for a city_core engine. -/
def ccSpecInvBalance (e : CityCore.HomeostaticEngine) : ℚ :=
  1 - |(e.zones.map CityCore.Zone.activity).sum / e.zones.length - e.target|

/-- C6 counterexample: the city_core snapshot's `system_health` is the mean
activity — on the seeded engine it is 0.46, while the fraction of zones
classified Calm is 0.4 and `1 - homeostatic_balance` is 0.96, so it matches
neither documented variant. -/
theorem cityCore_health_matches_neither_variant :
    CityCore.HomeostaticEngine.new.getState.system_health = F.fin (23/50) ∧
    CityCore.HomeostaticEngine.new.getState.system_health ≠
      F.fin (ccSpecCalmFraction CityCore.HomeostaticEngine.new) ∧
    CityCore.HomeostaticEngine.new.getState.system_health ≠
      F.fin (ccSpecInvBalance CityCore.HomeostaticEngine.new) := by
  have hval : CityCore.HomeostaticEngine.new.getState.system_health = F.fin (23/50) := by
    norm_num [CityCore.HomeostaticEngine.getState, CityCore.HomeostaticEngine.new, fdivNat]
  have hcalm : ccSpecCalmFraction CityCore.HomeostaticEngine.new = 2/5 := by
    simp only [ccSpecCalmFraction, CityCore.HomeostaticEngine.new, List.filter_cons]
    norm_num
  have hinv : ccSpecInvBalance CityCore.HomeostaticEngine.new = 24/25 := by
    simp only [ccSpecInvBalance, CityCore.HomeostaticEngine.new, List.map_cons, List.map_nil]
    norm_num [abs_of_nonpos, abs_of_nonneg]
  refine ⟨hval, ?_, ?_⟩
  · rw [hval, hcalm]
    simp only [ne_eq, F.fin.injEq]
    norm_num
  · rw [hval, hinv]
    simp only [ne_eq, F.fin.injEq]
    norm_num

/-- C6 (amended): `main_optimized`'s `get_state` computes `system_health` as
the fraction of zones whose stored state is `"CALM"`, which — on every
classification-consistent state — equals the fraction of zones currently
classified Calm (the first documented variant).  City_core's snapshot instead
reports the mean activity, which matches neither variant. -/
theorem optimized_health_is_calm_fraction (b : Optimized.BHCS) (now : ℤ)
    (h : ∀ z ∈ b.zones, z.state = Optimized.determine_state z.activity)
    (hn : b.zones.length ≠ 0) :
    (b.get_state_metrics now).system_health =
      F.fin
        (((b.zones.filter
            (fun z => Optimized.determine_state z.activity == "CALM")).length : ℚ) /
          b.zones.length) := by
  have hfilter : b.zones.filter (fun z => z.state == "CALM") =
      b.zones.filter (fun z => Optimized.determine_state z.activity == "CALM") := by
    refine List.filter_congr ?_
    intro z hz
    rw [h z hz]
  simp only [Optimized.BHCS.get_state_metrics, hfilter, fdivNat, hn, if_false]

/-- A concrete three-zone `main_optimized` system in a classification-consistent
state: activities 0.3, 0.4 and 0.7 with their derived state strings. -/
def optB3 : Optimized.BHCS :=
  { zones :=
      [ ⟨0, 3/10, 1/2, "CALM", 0⟩,
        ⟨1, 2/5, 1/2, "OVERSTIMULATED", 0⟩,
        ⟨2, 7/10, 1/2, "EMERGENT", 0⟩ ]
    learning_rate := 1/50 }

/-- Witness for the C6 amended theorem: on the concrete three-zone system one
zone of three is Calm, so `system_health` is 1/3. -/
theorem optimized_health_is_calm_fraction_witness :
    (optB3.get_state_metrics 0).system_health = F.fin (1/3) := by
  have hcons : ∀ z ∈ optB3.zones, z.state = Optimized.determine_state z.activity := by
    simp only [optB3, List.forall_mem_cons, List.forall_mem_nil]
    norm_num [Optimized.determine_state]
  have hlen : optB3.zones.length ≠ 0 := by simp [optB3]
  refine (optimized_health_is_calm_fraction optB3 0 hcons hlen).trans ?_
  simp only [optB3, List.filter_cons]
  norm_num [Optimized.determine_state]
  simp

/-- C7: for every rust-core engine with at least one zone, the snapshot
metrics satisfy `average_activity = (Σ activity) / N` and
`homeostatic_balance = |average_activity - target|`, computed from the
current zone values. -/
theorem rustCore_metrics_formulas (e : RustCore.HomeostaticEngine) (now : ℤ)
    (h : 1 ≤ e.zones.length) :
    (e.get_system_metrics now).average_activity =
      F.fin ((e.zones.map RustCore.Zone.activity).sum / e.zones.length) ∧
    (e.get_system_metrics now).homeostatic_balance =
      F.fin (|(e.zones.map RustCore.Zone.activity).sum / e.zones.length -
        e.config.target_calmness|) := by
  have hn : e.zones.length ≠ 0 := by omega
  simp only [RustCore.HomeostaticEngine.get_system_metrics, fdivNat, if_neg hn, fabsSub]
  exact ⟨trivial, trivial⟩

/-- Witness for C7 on the concrete five-zone engine: every zone starts at
activity 0.2, so the mean is 0.2 and the balance is 0.3. -/
theorem rustCore_metrics_formulas_witness :
    (rcE5.get_system_metrics 0).average_activity = F.fin (1/5) ∧
    (rcE5.get_system_metrics 0).homeostatic_balance = F.fin (3/10) := by
  have h := rustCore_metrics_formulas rcE5 0 (by rw [rcE5_length]; omega)
  refine ⟨h.1.trans ?_, h.2.trans ?_⟩ <;>
    norm_num [rcE5, RustCore.HomeostaticEngine.new, RustCore.Zone.new,
      RustCore.HomeostaticConfig.default, List.range_succ, abs_of_nonpos]

/-- C8: a valid `apply_influence` touches only the targeted zone: in city_core
it leaves every EMA accumulator, the target, the learning rate and every
other zone unchanged; in rust-core it leaves the configuration and every
other zone unchanged, and preserves the targeted zone's identity and target
(only its activity, state and last_update may change). -/
theorem influence_touches_only_target_zone
    (e : CityCore.HomeostaticEngine) (r : RustCore.HomeostaticEngine)
    (i : ℕ) (d : ℚ) (now : ℤ) (hc : i < e.zones.length) (hr : i < r.zones.length) :
    (∃ e', e.applyInfluence i d = Except.ok e' ∧
      e'.ema = e.ema ∧ e'.target = e.target ∧ e'.eta = e.eta ∧
      (∀ j, j ≠ i → e'.zones[j]? = e.zones[j]?)) ∧
    ((r.apply_influence i d now).config = r.config ∧
      (∀ j, j ≠ i → (r.apply_influence i d now).zones[j]? = r.zones[j]?) ∧
      (r.apply_influence i d now).zones[i]?.map RustCore.Zone.id =
        r.zones[i]?.map RustCore.Zone.id ∧
      (r.apply_influence i d now).zones[i]?.map RustCore.Zone.target =
        r.zones[i]?.map RustCore.Zone.target) := by
  constructor
  · refine ⟨_, CityCore.applyInfluence_ok e i d hc, rfl, rfl, rfl, ?_⟩
    intro j hj
    exact List.getElem?_set_ne (Ne.symm hj)
  · unfold RustCore.HomeostaticEngine.apply_influence
    rw [dif_pos hr]
    refine ⟨rfl, fun j hj => List.getElem?_set_ne (Ne.symm hj), ?_, ?_⟩ <;>
      rw [List.getElem?_set_eq_of_lt _ hr, List.getElem?_eq_getElem hr] <;> rfl

/-- Witness for C8 at concrete engines: influencing zone 0 leaves the
city_core EMA vector and rust-core zone 3 untouched. -/
theorem influence_touches_only_target_zone_witness :
    (∃ e', CityCore.HomeostaticEngine.new.applyInfluence 0 (1/10) = Except.ok e' ∧
      e'.ema = CityCore.HomeostaticEngine.new.ema) ∧
    (rcE5.apply_influence 0 (1/10) 0).zones[3]? = rcE5.zones[3]? := by
  obtain ⟨⟨e', hok, hema, -, -, -⟩, hrc⟩ :=
    influence_touches_only_target_zone CityCore.HomeostaticEngine.new rcE5 0 (1/10) 0
      (by norm_num [CityCore.HomeostaticEngine.new]) (by rw [rcE5_length]; omega)
  exact ⟨⟨e', hok, hema⟩, hrc.2.1 3 (by omega)⟩

/-- C10: a rust-core engine constructed with a zone count of 0 (which the
configuration type permits) still yields a snapshot, but its
`average_activity` and `homeostatic_balance` are NaN: the mean divides the
(empty, hence 0.0) activity sum by the zone count 0.0 with no emptiness
guard, and the NaN propagates into the balance. -/
theorem rustCore_zero_zone_metrics_are_nan (t l : ℚ) (r : ℕ → ℚ) (t0 now : ℤ) :
    ((RustCore.HomeostaticEngine.new ⟨t, l, 0⟩ r t0).get_system_metrics now).average_activity
        = F.nan ∧
    ((RustCore.HomeostaticEngine.new ⟨t, l, 0⟩ r t0).get_system_metrics now).homeostatic_balance
        = F.nan := by
  simp [RustCore.HomeostaticEngine.new, RustCore.HomeostaticEngine.get_system_metrics,
    fdivNat, fabsSub]
